import Mathlib

/-!
Verification of the charging-station map data-synchronization controller
(`ChargingStationsAlbaniaPage` and `services/chargingStations.ts`).

JS numbers are modelled as exact rationals (`Rat`); NaN/Infinity are outside
the model, so `Number.isFinite` guards are vacuously true.  JS strings are
modelled as Lean `String`s; `charCodeAt` is modelled by the character's code
point, which agrees with the UTF-16 code unit on the Basic Multilingual Plane
(all ids exercised here are ASCII).
-/

namespace MakinaElektrike

/-- Nullish-coalescing (`a ?? b`) and object-truthiness-or (`a || b`) on
optional object values: the left value when present, otherwise the right. -/
def optOr {α : Type} (a b : Option α) : Option α :=
  match a with
  | some x => some x
  | none => b

/-- JS string-or chain `a || b || ''`: empty string and `undefined` are both
falsy, so the result is the first nonempty string, or `""`. -/
def strOr (a b : Option String) : String :=
  let av := a.getD ""
  if av = "" then b.getD "" else av

/-- JS `String.prototype.includes`: substring containment (the empty pattern
is contained in every string). -/
def strIncludes (s sub : String) : Bool :=
  if sub = "" then true else 2 ≤ (s.splitOn sub).length

/-! ## Data model

`LatLngBounds` models a Leaflet `L.LatLngBounds` by its north-east and
south-west corners.  `BoundsTuple` is the page's
`[topLat, leftLng, bottomLat, rightLng]` tuple. -/

structure LatLngBounds where
  neLat : Rat
  neLng : Rat
  swLat : Rat
  swLng : Rat
deriving DecidableEq

structure BoundsTuple where
  topLat : Rat
  leftLng : Rat
  bottomLat : Rat
  rightLng : Rat
deriving DecidableEq

inductive Mode where
  | country
  | bounds
deriving DecidableEq

/-- Mirrors `lastContextRef`'s type
`{ mode: 'country' | 'bounds'; bounds: BoundsTuple | null }` (a product, not a
tagged union: `mode = 'bounds'` with `bounds = null` is representable). -/
structure QueryContext where
  mode : Mode
  bounds : Option BoundsTuple
deriving DecidableEq

/-- Geodata records carry address information in either camelCase or
PascalCase (OCM GeoJSON default); each spelling is an optional field. -/
structure AddressInfoShape where
  title : Option String := none
  addressLine1 : Option String := none
  town : Option String := none
  stateOrProvince : Option String := none
  postcode : Option String := none
  latitude : Option Rat := none
  longitude : Option Rat := none
  pTitle : Option String := none
  pAddressLine1 : Option String := none
  pTown : Option String := none
  pStateOrProvince : Option String := none
  pPostcode : Option String := none
  pLatitude : Option Rat := none
  pLongitude : Option Rat := none
deriving DecidableEq

/-- An `{ id, title }` object, as used for connection types, levels, status,
usage and operator info in the converted shape. -/
structure IdTitle where
  id : Int
  title : String
deriving DecidableEq

structure Connection where
  id : Int
  connectionType : IdTitle
  level : IdTitle
  powerKW : Option Rat
  quantity : Nat
deriving DecidableEq

/-- Operator info with dual-shape optional title fields (`title` / `Title`). -/
structure OperatorInfoShape where
  id : Option Int := none
  title : Option String := none
  pTitle : Option String := none
deriving DecidableEq

/-- GeoJSON geometry of a station feature: a `Point` with
`coordinates = [lng, lat]`, or absent/non-point. -/
inductive Geometry where
  | point (lng lat : Rat)
  | missing
deriving DecidableEq

/-- Property bag of a station feature; dual-shape fields carry the camelCase
spelling in the plain name and the PascalCase spelling in the `p`-prefixed
name (Lean forbids a field named identically to its own type). -/
structure StationProperties where
  id : Int
  title : Option String := none
  pTitle : Option String := none
  addressInfo : Option AddressInfoShape := none
  pAddressInfo : Option AddressInfoShape := none
  connections : List Connection := []
  pConnections : List Connection := []
  statusType : Option IdTitle := none
  usageType : Option IdTitle := none
  usageCost : Option String := none
  operatorInfo : Option OperatorInfoShape := none
  pOperatorInfo : Option OperatorInfoShape := none
  dateLastVerified : Option String := none
  isCustomStation : Bool := false
  customStationData : Option (Option String) := none
deriving DecidableEq

structure StationFeature where
  geometry : Geometry
  properties : StationProperties
deriving DecidableEq

/-- First-party station record (`ChargingStation` in `types.ts`, as produced
by `services/chargingStations.ts`): a persistent Firestore string id plus the
document fields.  `updatedAt` is retained as its ISO-string rendering, which
is all `convertToOCMFormat` uses it for. -/
structure ChargingStation where
  id : String
  address : String
  plugTypes : String
  chargingSpeedKw : Rat
  operator : Option String := none
  pricingDetails : Option String := none
  googleMapsLink : Option String := none
  latitude : Option Rat := none
  longitude : Option Rat := none
  updatedAt : Option String := none
deriving DecidableEq

/-! ## Synthetic id derivation (`convertToOCMFormat`) -/

/-- Wraps an integer to the signed 32-bit range, as JS `| 0` and the 32-bit
result of `<<` do. -/
def toInt32 (n : Int) : Int :=
  (n + 2 ^ 31) % 2 ^ 32 - 2 ^ 31

/-- One step of the rolling hash: `((acc << 5) - acc) + code | 0`.  The
intermediate JS arithmetic is exact in doubles at these magnitudes; `acc << 5`
is the 32-bit-wrapped product `acc * 32`. -/
def hashStep (acc : Int) (code : Int) : Int :=
  toInt32 (toInt32 (acc * 32) - acc + code)

/-- Hash of `station.id.split('').reduce(...)`: fold `hashStep` over the
id's character codes (its list of characters), starting from 0. -/
def jsHash (s : String) : Int :=
  s.data.foldl (fun acc c => hashStep acc (Int.ofNat c.toNat)) 0

/-- Synthetic numeric id: `Math.abs(hash) + 1000000`. -/
def numericId (s : String) : Int :=
  ((jsHash s).natAbs : Int) + 1000000

/-- Translation of `convertToOCMFormat`: `none` when either coordinate is
null, otherwise the OCM-shaped feature built from the record. -/
def convertToOCMFormat (station : ChargingStation) : Option StationFeature :=
  match station.latitude, station.longitude with
  | some la, some ln =>
    some
      { geometry := Geometry.point ln la
        properties :=
          { id := numericId station.id
            title := some station.address
            addressInfo :=
              some
                { title := some station.address
                  addressLine1 := some station.address
                  town := some ""
                  stateOrProvince := some "Albania"
                  postcode := some ""
                  latitude := some la
                  longitude := some ln }
            connections :=
              [{ id := 1
                 connectionType := { id := 1, title := station.plugTypes }
                 level := { id := 1, title := "Fast" }
                 powerKW := some station.chargingSpeedKw
                 quantity := 1 }]
            statusType := some { id := 50, title := "Operational" }
            usageType := some { id := 1, title := "Public" }
            usageCost :=
              match station.pricingDetails with
              | some p => if p = "" then none else some p
              | none => none
            operatorInfo :=
              some
                { id := some 1
                  title :=
                    some
                      (match station.operator with
                       | some op => if op = "" then "Custom Station" else op
                       | none => "Custom Station") }
            dateLastVerified := station.updatedAt
            isCustomStation := true
            customStationData := some station.googleMapsLink } }
  | _, _ => none

/-- Translation of `mergeStationsWithOCM`: convert the custom stations
(dropping those without coordinates) and append them after the OCM list. -/
def mergeStationsWithOCM (customStations : List ChargingStation)
    (ocmStations : List StationFeature) : List StationFeature :=
  ocmStations ++ customStations.filterMap convertToOCMFormat

/-! ## Page controller state

One record per piece of React state (`useState`) or mutable ref (`useRef`)
read or written by the controller logic.  AbortControllers are identified by
the order of their creation; `aborted` is the set of controllers whose
`abort()` has been called.  `moveDebounce` models the *pending* debounce
timer as its fire time and the bounds captured by its callback (`none` when
no timer is pending). `warnings` accumulates `console.warn` diagnostics. -/

structure PageState where
  stations : List StationFeature
  loadingStations : Bool
  error : Option String
  lastUpdated : Option Nat
  pendingSearch : Bool
  autoUpdate : Bool
  mapCenter : Rat × Rat
  mapZoom : Int
  fetchController : Option Nat
  aborted : List Nat
  requestToken : Nat
  lastNonEmptyStations : Option (List StationFeature)
  lastContext : QueryContext
  pendingBounds : Option LatLngBounds
  moveDebounce : Option (Nat × LatLngBounds)
  hasLoadedOnce : Bool
  nextControllerId : Nat
  warnings : List String
deriving DecidableEq

/-- Initial state of the page: empty station list, no error, no refs set,
`lastContextRef` initialised to `{ mode: 'country', bounds: null }`.
`autoUpdate`, the map center and the zoom come from the URL parameters. -/
def initialPageState (autoUpdate : Bool) (center : Rat × Rat) (zoom : Int) : PageState :=
  { stations := []
    loadingStations := false
    error := none
    lastUpdated := none
    pendingSearch := false
    autoUpdate := autoUpdate
    mapCenter := center
    mapZoom := zoom
    fetchController := none
    aborted := []
    requestToken := 0
    lastNonEmptyStations := none
    lastContext := { mode := Mode.country, bounds := none }
    pendingBounds := none
    moveDebounce := none
    hasLoadedOnce := false
    nextControllerId := 0
    warnings := [] }

/-- Rounding performed by `Number(x.toFixed(6))`: round to six decimal places,
ties to the larger value (both JS `toFixed` and Mathlib's `round` pick the
larger candidate on a tie). -/
def toFixed6 (q : Rat) : Rat :=
  (round (q * 1000000) : Int) / 1000000

/-- The `nextContext` bounds tuple computed inside `loadStations`:
`[ne.lat, sw.lng, sw.lat, ne.lng]`, each through `Number(x.toFixed(6))`. -/
def boundsToTuple (b : LatLngBounds) : BoundsTuple :=
  { topLat := toFixed6 b.neLat
    leftLng := toFixed6 b.swLng
    bottomLat := toFixed6 b.swLat
    rightLng := toFixed6 b.neLng }

/-- Translation of `boundsFromTuple` for a present tuple:
`L.latLngBounds([bottomLat, leftLng], [topLat, rightLng])` — Leaflet
normalises the two corners into south-west/north-east by min/max. -/
def boundsFromTuple (t : BoundsTuple) : LatLngBounds :=
  { neLat := max t.bottomLat t.topLat
    neLng := max t.leftLng t.rightLng
    swLat := min t.bottomLat t.topLat
    swLng := min t.leftLng t.rightLng }

/-- Record of one issued `loadStations` request: which AbortController it
created, its generation token, and what was passed to the two sub-fetches.
`ocmSignal` is the signal handed to the third-party `fetchStations` call;
`customSignal` the one handed to the first-party `fetchChargingStations`
call (the source passes none).  `fetchBounds` is the bounds serialised into
the `boundingBox` parameter of the geodata request (`options.bounds`, when
given); `sourceBounds` is the bounds used for the stored query context. -/
structure RequestSpec where
  controllerId : Nat
  token : Nat
  mode : Mode
  ocmSignal : Option Nat
  customSignal : Option Nat
  fetchBounds : Option LatLngBounds
  sourceBounds : Option LatLngBounds
  nextContext : QueryContext
deriving DecidableEq

/-- Synchronous prefix of `loadStations(mode, options)`, up to the first
`await`: abort the previous controller, create a fresh one, bump the
generation token, set loading, clear the error, and compute `sourceBounds`
and `nextContext`.  `optBounds` is `options.bounds`; `mapBounds` is
`mapRef.current?.getBounds()`.  Returns the updated state and the record of
the request that was issued. -/
def loadStart (mode : Mode) (optBounds mapBounds : Option LatLngBounds)
    (s : PageState) : PageState × RequestSpec :=
  let aborted :=
    match s.fetchController with
    | some c => c :: s.aborted
    | none => s.aborted
  let cid := s.nextControllerId
  let token := s.requestToken + 1
  let sourceBounds :=
    match mode with
    | Mode.bounds => optOr optBounds mapBounds
    | Mode.country => none
  let nextContext : QueryContext :=
    match sourceBounds with
    | some b => { mode := Mode.bounds, bounds := some (boundsToTuple b) }
    | none => { mode := Mode.country, bounds := none }
  let req : RequestSpec :=
    { controllerId := cid
      token := token
      mode := mode
      ocmSignal := some cid
      customSignal := none
      fetchBounds :=
        match mode with
        | Mode.bounds => optBounds
        | Mode.country => none
      sourceBounds := sourceBounds
      nextContext := nextContext }
  ({ s with
      fetchController := some cid
      aborted := aborted
      requestToken := token
      loadingStations := true
      error := none
      nextControllerId := cid + 1 }, req)

/-- Outcome of the awaited `Promise.all`.  A store failure is caught inside
the pair (`.catch(() => [])`), so `success` carries `customResult = none`
for a thrown first-party fetch; `ocmFeatures = none` models a response whose
`features` is not an array.  `failure` is a rejection of the geodata fetch
(or of the whole `Promise.all`). -/
inductive FetchOutcome where
  | success (ocmFeatures : Option (List StationFeature))
      (customResult : Option (List ChargingStation))
  | failure (message : String)
deriving DecidableEq

/-- Truth of `controller.signal.aborted` for the request's controller. -/
def isAborted (s : PageState) (cid : Nat) : Bool :=
  decide (cid ∈ s.aborted)

/-- The `finally` block: clear the loading flag unless the controller was
aborted. -/
def applyFinally (aborted : Bool) (st : PageState) : PageState :=
  if aborted then st else { st with loadingStations := false }

/-- Warning logged when an authoritative fetch returns zero stations while a
previous non-empty set exists. -/
def emptyBoundsWarning : String :=
  "Open Charge Map returned 0 stations for the current bounds; keeping previous markers."

/-- Decision logic of lines 505–516: display a non-empty result and remember
it; on an empty result, show empty on the first ever load, keep the previous
non-empty markers (with a warning) when one exists, and show empty
otherwise. -/
def stabilizeStations (features : List StationFeature) (s : PageState) : PageState :=
  if 0 < features.length then
    { s with stations := features, lastNonEmptyStations := some features }
  else if s.hasLoadedOnce = false then
    { s with stations := [], lastNonEmptyStations := none }
  else
    match s.lastNonEmptyStations with
    | some l =>
      if 0 < l.length then
        { s with
            warnings := s.warnings ++ [emptyBoundsWarning]
            stations := if 0 < s.stations.length then s.stations else l }
      else { s with stations := [] }
    | none => { s with stations := [] }

/-- Authoritative success path (after the generation check passed): merge,
stabilize, record the query context, timestamp, has-loaded-once flag, and
remember the source bounds for the manual-search prompt. -/
def applySuccess (req : RequestSpec) (ocmFeatures : Option (List StationFeature))
    (customResult : Option (List ChargingStation)) (now : Nat)
    (s : PageState) : PageState :=
  let customStations := customResult.getD []
  let ocmList := ocmFeatures.getD []
  let features := mergeStationsWithOCM customStations ocmList
  let s1 := { s with lastContext := req.nextContext }
  let s2 := stabilizeStations features s1
  let s3 := { s2 with lastUpdated := some now, hasLoadedOnce := true }
  match req.sourceBounds with
  | some b => { s3 with pendingBounds := some b }
  | none => s3

/-- Resolution of a `loadStations` call against the state current at that
moment.  On success the generation token is compared first
(`requestToken !== requestTokenRef.current` returns early); the `catch`
block returns early when the controller was aborted and otherwise records
the error; the `finally` block clears the loading flag unless aborted. -/
def loadComplete (req : RequestSpec) (outcome : FetchOutcome) (now : Nat)
    (s : PageState) : PageState :=
  match outcome with
  | FetchOutcome.success ocmFeatures customResult =>
    if req.token = s.requestToken then
      applyFinally (isAborted s req.controllerId)
        (applySuccess req ocmFeatures customResult now s)
    else
      applyFinally (isAborted s req.controllerId) s
  | FetchOutcome.failure msg =>
    applyFinally (isAborted s req.controllerId)
      (if isAborted s req.controllerId then s else { s with error := some msg })

/-- Translation of `handleMapMove` at time `now`: always record the new map
state; with auto-sync on, clear the pending-search flag, remember the bounds
and (re)arm the 450 ms trailing debounce timer (clearTimeout + setTimeout
collapses to overwriting the single pending-timer slot); with auto-sync off,
remember the bounds and raise the pending-search flag — no fetch, no
timer. -/
def handleMapMove (now : Nat) (center : Rat × Rat) (zoom : Int)
    (bounds : LatLngBounds) (s : PageState) : PageState :=
  let s := { s with mapCenter := center, mapZoom := zoom }
  if s.autoUpdate then
    { s with
        pendingSearch := false
        pendingBounds := some bounds
        moveDebounce := some (now + 450, bounds) }
  else
    { s with pendingBounds := some bounds, pendingSearch := true }

/-- The `loadStations` call `handleRetry` makes, as (mode, options.bounds):
bounds-scoped with the reconstructed stored box when the stored context is
bounds-scoped with a tuple, country-scoped otherwise. -/
def retryTarget (s : PageState) : Mode × Option LatLngBounds :=
  if s.lastContext.mode = Mode.bounds then
    match s.lastContext.bounds with
    | some t => (Mode.bounds, some (boundsFromTuple t))
    | none => (Mode.country, none)
  else (Mode.country, none)

/-! ## Derived views (list panel and map markers) -/

/-- First-seen deduplication, as `[...new Set(segments)]` (insertion order,
later duplicates dropped). -/
def dedupFirstAux (seen : List String) : List String → List String
  | [] => []
  | x :: xs =>
    if x ∈ seen then dedupFirstAux seen xs
    else x :: dedupFirstAux (x :: seen) xs

def dedupFirst (l : List String) : List String :=
  dedupFirstAux [] l

/-- Translation of `formatAddress`: pick the address info in either shape,
collect the five dual-shape segments, drop falsy ones, dedupe, and join with
a comma. -/
def formatAddress (p : StationProperties) : String :=
  match optOr p.addressInfo p.pAddressInfo with
  | none => ""
  | some a =>
    let segments :=
      [strOr a.title a.pTitle, strOr a.addressLine1 a.pAddressLine1,
       strOr a.town a.pTown, strOr a.stateOrProvince a.pStateOrProvince,
       strOr a.postcode a.pPostcode].filter (fun s => s ≠ "")
    String.intercalate (", ") (dedupFirst segments)

/-- Translation of `getStationLatLng`: the point geometry's (lat, lng) when
present (finiteness is automatic over ℚ), otherwise the address info's
coordinates with 0 as the final fallback. -/
def getStationLatLng (f : StationFeature) : Rat × Rat :=
  match f.geometry with
  | Geometry.point lng lat => (lat, lng)
  | Geometry.missing =>
    let a := optOr f.properties.addressInfo f.properties.pAddressInfo
    ((a.bind (fun x => optOr x.latitude x.pLatitude)).getD 0,
     (a.bind (fun x => optOr x.longitude x.pLongitude)).getD 0)

/-- The comparator `(b.isCustom ? 1 : 0) - (a.isCustom ? 1 : 0)` under JS
`Array.prototype.sort` (stable since ES2019) is exactly the stable partition
moving custom stations to the front. -/
def sortCustomFirst (l : List StationFeature) : List StationFeature :=
  l.filter (fun f => f.properties.isCustomStation) ++
    l.filter (fun f => !f.properties.isCustomStation)

/-- JS `toLowerCase`, modelled on the character list (ASCII lowering; the
ids and titles exercised here are ASCII). -/
def jsToLower (s : String) : String :=
  String.mk (s.data.map Char.toLower)

/-- JS `trim`, modelled on the character list: strip leading and trailing
whitespace. -/
def jsTrim (s : String) : String :=
  String.mk
    (((s.data.dropWhile Char.isWhitespace).reverse.dropWhile
      Char.isWhitespace).reverse)

/-- Per-feature predicate of the `visibleStations` search filter. -/
def matchesQuery (query : String) (f : StationFeature) : Bool :=
  let address := jsToLower (formatAddress f.properties)
  let operatorName :=
    jsToLower (strOr (f.properties.operatorInfo.bind (fun o => o.title))
      (f.properties.pOperatorInfo.bind (fun o => o.pTitle)))
  let title := jsToLower (strOr f.properties.title f.properties.pTitle)
  strIncludes title query || strIncludes operatorName query ||
    strIncludes address query

/-- Translation of the `visibleStations` memo: sort custom stations to the
top, then filter by the trimmed lower-cased search term (no filtering when
the term is blank). -/
def visibleStations (searchTerm : String) (stations : List StationFeature) :
    List StationFeature :=
  let sorted := sortCustomFirst stations
  let query := jsToLower (jsTrim searchTerm)
  if query = "" then sorted else sorted.filter (matchesQuery query)

/-- Order in which the marker-rendering effect creates markers: it iterates
`visibleStations` and skips features without finite coordinates — a guard
that never rejects in the rational model, where every `getStationLatLng`
result is finite.  Listed by station id. -/
def markerCreationOrder (searchTerm : String) (stations : List StationFeature) :
    List Int :=
  (visibleStations searchTerm stations).map (fun f => f.properties.id)

/-! ## Worlds: the controller together with its issued requests

A `World` pairs the page state with the log of issued requests (in issue
order) and the times at which the debounce timer fired.  Events model the
entry points that run to completion within one event-loop turn. -/

structure World where
  state : PageState
  requests : List RequestSpec
  debFires : List Nat
deriving DecidableEq

def initialWorld (autoUpdate : Bool) (center : Rat × Rat) (zoom : Int) : World :=
  { state := initialPageState autoUpdate center zoom
    requests := []
    debFires := [] }

/-- Issue a `loadStations` call: run the synchronous prefix and log the
request. -/
def wStart (mode : Mode) (optBounds mapBounds : Option LatLngBounds)
    (w : World) : World :=
  let p := loadStart mode optBounds mapBounds w.state
  { state := p.1, requests := w.requests ++ [p.2], debFires := w.debFires }

/-- Fire the pending debounce timer if its deadline has passed by time `t`:
the callback runs `loadStations('bounds', { bounds })` with the bounds it
captured.  After firing, no timer is pending. -/
def fireDue (t : Nat) (w : World) : World :=
  match w.state.moveDebounce with
  | some p =>
    if p.1 ≤ t then
      wStart Mode.bounds (some p.2) none
        { w with
            state := { w.state with moveDebounce := none }
            debFires := w.debFires ++ [p.1] }
    else w
  | none => w

/-- Fire the pending timer (if any) at its own deadline. -/
def flushTimer (w : World) : World :=
  match w.state.moveDebounce with
  | some p => fireDue p.1 w
  | none => w

/-- A map movement event. -/
structure MoveEv where
  t : Nat
  center : Rat × Rat
  zoom : Int
  bounds : LatLngBounds
deriving DecidableEq

/-- Processing a movement at time `m.t`: any timer due by then has already
fired; then `handleMapMove` runs. -/
def wMove (m : MoveEv) (w : World) : World :=
  let w1 := fireDue m.t w
  { w1 with state := handleMapMove m.t m.center m.zoom m.bounds w1.state }

def runMoves (ms : List MoveEv) (w : World) : World :=
  ms.foldl (fun w m => wMove m w) w

/-- Translation of `handleSearchArea`: take the tracked pending bounds,
falling back to the current map bounds; when one exists, clear the
pending-search flag and issue one bounds-scoped `loadStations`
immediately. -/
def wSearchArea (mapBounds : Option LatLngBounds) (w : World) : World :=
  match optOr w.state.pendingBounds mapBounds with
  | some b =>
    wStart Mode.bounds (some b) mapBounds
      { w with state := { w.state with pendingSearch := false } }
  | none => w

/-- Translation of `handleRetry`: re-issue `loadStations` at the stored
query context's scope. -/
def wRetry (mapBounds : Option LatLngBounds) (w : World) : World :=
  let tgt := retryTarget w.state
  wStart tgt.1 tgt.2 mapBounds w

/-- Toggling auto-sync; the `autoUpdate` effect then issues a bounds-scoped
load over the current map bounds when the toggle turned it on. -/
def wToggleAuto (mapBounds : Option LatLngBounds) (w : World) : World :=
  let s := { w.state with autoUpdate := !w.state.autoUpdate }
  let w1 := { w with state := s }
  if s.autoUpdate then
    match mapBounds with
    | some b =>
      wStart Mode.bounds (some b) mapBounds
        { w1 with state := { s with pendingSearch := false } }
    | none => w1
  else w1

/-- Events that can hit the controller, each running synchronously within
one event-loop turn.  `complete` resolves the `idx`-th issued request with
an arbitrary outcome at an arbitrary time — resolution order is
unconstrained. -/
inductive WEvent where
  | start (mode : Mode) (optBounds mapBounds : Option LatLngBounds)
  | complete (idx : Nat) (outcome : FetchOutcome) (now : Nat)
  | move (m : MoveEv)
  | searchArea (mapBounds : Option LatLngBounds)
  | retry (mapBounds : Option LatLngBounds)
  | toggleAuto (mapBounds : Option LatLngBounds)
  | timerFire

def wStep (e : WEvent) (w : World) : World :=
  match e with
  | WEvent.start mode ob mb => wStart mode ob mb w
  | WEvent.complete idx outcome now =>
    match w.requests.get? idx with
    | some r => { w with state := loadComplete r outcome now w.state }
    | none => w
  | WEvent.move m => wMove m w
  | WEvent.searchArea mb => wSearchArea mb w
  | WEvent.retry mb => wRetry mb w
  | WEvent.toggleAuto mb => wToggleAuto mb w
  | WEvent.timerFire => flushTimer w

def wRun (es : List WEvent) (w : World) : World :=
  es.foldl (fun w e => wStep e w) w

/-- A world the page can actually be in: reached from some initial state by
some event sequence. -/
def Reachable (w : World) : Prop :=
  ∃ au c z es, w = wRun es (initialWorld au c z)

/-- Relations between the issued requests and the controller's bookkeeping
refs that hold in every reachable world: tokens never exceed the current
generation, every aborted request is stale, the current controller's request
carries the current generation, and controller ids are allocated in order. -/
structure Inv (w : World) : Prop where
  reqToken : ∀ r ∈ w.requests, r.token ≤ w.state.requestToken
  abortedStale : ∀ r ∈ w.requests,
    r.controllerId ∈ w.state.aborted → r.token < w.state.requestToken
  currentFresh : ∀ r ∈ w.requests,
    w.state.fetchController = some r.controllerId → r.token = w.state.requestToken
  reqIdLt : ∀ r ∈ w.requests, r.controllerId < w.state.nextControllerId
  ctrlLt : ∀ c, w.state.fetchController = some c → c < w.state.nextControllerId
  abortedLt : ∀ a ∈ w.state.aborted, a < w.state.nextControllerId

/-! ## Concrete scenario data used by witnesses -/

/-- Stale request used to exercise the discard path. -/
def cStaleReq : RequestSpec :=
  { controllerId := 0
    token := 5
    mode := Mode.country
    ocmSignal := some 0
    customSignal := none
    fetchBounds := none
    sourceBounds := none
    nextContext := { mode := Mode.country, bounds := none } }

/-- Concrete first-party record with coordinates. -/
def cStation : ChargingStation :=
  { id := "abc"
    address := "Street 1"
    plugTypes := "Type 2"
    chargingSpeedKw := 50
    latitude := some 41
    longitude := some 19 }

/-- The feature `cStation` converts to. -/
def cFeature : StationFeature :=
  (convertToOCMFormat cStation).getD
    { geometry := Geometry.missing, properties := { id := 0 } }

/-- One third-party feature used in concrete scenarios. -/
def exOcmFeature : StationFeature :=
  { geometry := Geometry.point 19 41
    properties := { id := 7, title := some "OCM One" } }

/-- A request whose token matches the states used in the witnesses below. -/
def cReqTok2 : RequestSpec :=
  { cStaleReq with token := 2 }

/-- A state in which a non-empty set has been displayed by a successful
load. -/
def cLoadedState : PageState :=
  { initialPageState true (0, 0) 8 with
      stations := [exOcmFeature]
      lastNonEmptyStations := some [exOcmFeature]
      hasLoadedOnce := true
      requestToken := 2 }

/-- Concrete bounds and the tuple stored for them. -/
def cBounds : LatLngBounds :=
  { neLat := 42, neLng := 20, swLat := 41, swLng := 19 }

def cTuple : BoundsTuple :=
  boundsToTuple cBounds

/-- A state whose stored query context is bounds-scoped. -/
def cBoundsState : PageState :=
  { cLoadedState with lastContext := { mode := Mode.bounds, bounds := some cTuple } }

/-- World after two country loads: the first request's controller has been
aborted by the second `loadStations`. -/
def cAbortWorld : World :=
  wRun [WEvent.start Mode.country none none, WEvent.start Mode.country none none]
    (initialWorld true (0, 0) 8)

/-- The first request issued in `cAbortWorld`. -/
def cAbortedReq : RequestSpec :=
  { controllerId := 0
    token := 1
    mode := Mode.country
    ocmSignal := some 0
    customSignal := none
    fetchBounds := none
    sourceBounds := none
    nextContext := { mode := Mode.country, bounds := none } }

/-- A second concrete bounds value. -/
def cBounds2 : LatLngBounds :=
  { neLat := 43, neLng := 21, swLat := 42, swLng := 20 }

/-- Initial world with auto-sync off. -/
def cManualWorld : World :=
  initialWorld false (0, 0) 8

/-- Condition that each movement in the list happens strictly after the
previous one and strictly within 450 ms of it, starting from time `t`. -/
def gapsOk (t : Nat) : List MoveEv → Bool
  | [] => true
  | m :: ms => (decide (t < m.t) && decide (m.t < t + 450)) && gapsOk m.t ms

/-- Time and bounds of the last movement, with a default for the empty
list. -/
def lastMove (p : Nat × LatLngBounds) (ms : List MoveEv) : Nat × LatLngBounds :=
  ms.foldl (fun _ m => (m.t, m.bounds)) p

/-- A movement event at time `t` over bounds `b`. -/
def cMove (t : Nat) (b : LatLngBounds) : MoveEv :=
  { t := t, center := (1, 1), zoom := 9, bounds := b }

/-- Nine rapid follow-up movements, 100 ms apart, the last one over
different bounds. -/
def cBurst : List MoveEv :=
  [cMove 100 cBounds, cMove 200 cBounds, cMove 300 cBounds, cMove 400 cBounds,
   cMove 500 cBounds, cMove 600 cBounds, cMove 700 cBounds, cMove 800 cBounds,
   cMove 900 cBounds2]

/-! ## Bookkeeping lemmas

Resolving a fetch never touches the generation counter, the abort bookkeeping
or the controller ids; only `loadStart` does. -/

@[simp] lemma applyFinally_book (b : Bool) (st : PageState) :
    (applyFinally b st).requestToken = st.requestToken ∧
    (applyFinally b st).aborted = st.aborted ∧
    (applyFinally b st).fetchController = st.fetchController ∧
    (applyFinally b st).nextControllerId = st.nextControllerId := by
  unfold applyFinally
  split
  all_goals exact ⟨rfl, rfl, rfl, rfl⟩

@[simp] lemma stabilizeStations_book (f : List StationFeature) (s : PageState) :
    (stabilizeStations f s).requestToken = s.requestToken ∧
    (stabilizeStations f s).aborted = s.aborted ∧
    (stabilizeStations f s).fetchController = s.fetchController ∧
    (stabilizeStations f s).nextControllerId = s.nextControllerId := by
  unfold stabilizeStations
  repeat' split
  all_goals exact ⟨rfl, rfl, rfl, rfl⟩

@[simp] lemma applySuccess_book (req : RequestSpec)
    (ocm : Option (List StationFeature)) (c : Option (List ChargingStation))
    (now : Nat) (s : PageState) :
    (applySuccess req ocm c now s).requestToken = s.requestToken ∧
    (applySuccess req ocm c now s).aborted = s.aborted ∧
    (applySuccess req ocm c now s).fetchController = s.fetchController ∧
    (applySuccess req ocm c now s).nextControllerId = s.nextControllerId := by
  simp only [applySuccess]
  cases hsb : req.sourceBounds <;> simp [hsb]

@[simp] lemma loadComplete_book (req : RequestSpec) (o : FetchOutcome)
    (now : Nat) (s : PageState) :
    (loadComplete req o now s).requestToken = s.requestToken ∧
    (loadComplete req o now s).aborted = s.aborted ∧
    (loadComplete req o now s).fetchController = s.fetchController ∧
    (loadComplete req o now s).nextControllerId = s.nextControllerId := by
  cases o <;> simp only [loadComplete] <;> split <;> simp

@[simp] lemma handleMapMove_book (now : Nat) (c : Rat × Rat) (z : Int)
    (b : LatLngBounds) (s : PageState) :
    (handleMapMove now c z b s).requestToken = s.requestToken ∧
    (handleMapMove now c z b s).aborted = s.aborted ∧
    (handleMapMove now c z b s).fetchController = s.fetchController ∧
    (handleMapMove now c z b s).nextControllerId = s.nextControllerId := by
  simp only [handleMapMove]
  split
  all_goals exact ⟨rfl, rfl, rfl, rfl⟩

@[simp] lemma loadStart_state_requestToken (mode : Mode)
    (ob mb : Option LatLngBounds) (s : PageState) :
    ((loadStart mode ob mb s).1).requestToken = s.requestToken + 1 := rfl

@[simp] lemma loadStart_state_fetchController (mode : Mode)
    (ob mb : Option LatLngBounds) (s : PageState) :
    ((loadStart mode ob mb s).1).fetchController = some s.nextControllerId := rfl

@[simp] lemma loadStart_state_nextControllerId (mode : Mode)
    (ob mb : Option LatLngBounds) (s : PageState) :
    ((loadStart mode ob mb s).1).nextControllerId = s.nextControllerId + 1 := rfl

lemma loadStart_state_aborted (mode : Mode) (ob mb : Option LatLngBounds)
    (s : PageState) :
    ((loadStart mode ob mb s).1).aborted =
      (match s.fetchController with
       | some c => c :: s.aborted
       | none => s.aborted) := rfl

@[simp] lemma loadStart_req_token (mode : Mode) (ob mb : Option LatLngBounds)
    (s : PageState) :
    ((loadStart mode ob mb s).2).token = s.requestToken + 1 := rfl

@[simp] lemma loadStart_req_controllerId (mode : Mode)
    (ob mb : Option LatLngBounds) (s : PageState) :
    ((loadStart mode ob mb s).2).controllerId = s.nextControllerId := rfl

@[simp] lemma loadStart_req_ocmSignal (mode : Mode)
    (ob mb : Option LatLngBounds) (s : PageState) :
    ((loadStart mode ob mb s).2).ocmSignal = some s.nextControllerId := rfl

@[simp] lemma loadStart_req_customSignal (mode : Mode)
    (ob mb : Option LatLngBounds) (s : PageState) :
    ((loadStart mode ob mb s).2).customSignal = none := rfl

/-! ## The generation/abort invariant -/

lemma inv_initial (au : Bool) (c : Rat × Rat) (z : Int) :
    Inv (initialWorld au c z) := by
  constructor <;> simp [initialWorld, initialPageState]

lemma inv_of_book (w w' : World)
    (hreq : w'.requests = w.requests)
    (ht : w'.state.requestToken = w.state.requestToken)
    (ha : w'.state.aborted = w.state.aborted)
    (hf : w'.state.fetchController = w.state.fetchController)
    (hn : w'.state.nextControllerId = w.state.nextControllerId)
    (h : Inv w) : Inv w' := by
  obtain ⟨h1, h2, h3, h4, h5, h6⟩ := h
  refine ⟨?_, ?_, ?_, ?_, ?_, ?_⟩ <;>
    simp only [hreq, ht, ha, hf, hn] <;> assumption

lemma inv_wStart (mode : Mode) (ob mb : Option LatLngBounds) (w : World)
    (h : Inv w) : Inv (wStart mode ob mb w) := by
  obtain ⟨h1, h2, h3, h4, h5, h6⟩ := h
  have hreq : (wStart mode ob mb w).requests =
      w.requests ++ [(loadStart mode ob mb w.state).2] := rfl
  have hst : (wStart mode ob mb w).state = (loadStart mode ob mb w.state).1 := rfl
  constructor
  case reqToken =>
    intro r hr
    rw [hst]
    rcases List.mem_append.mp (hreq ▸ hr) with hr | hr
    · have := h1 r hr
      simp only [loadStart_state_requestToken]
      omega
    · rw [List.mem_singleton.mp hr]
      simp
  case abortedStale =>
    intro r hr hmem
    rw [hst] at hmem ⊢
    rw [loadStart_state_aborted] at hmem
    simp only [loadStart_state_requestToken]
    rcases List.mem_append.mp (hreq ▸ hr) with hr | hr
    · cases hfc : w.state.fetchController with
      | none =>
        rw [hfc] at hmem
        have := h2 r hr hmem
        omega
      | some c =>
        rw [hfc] at hmem
        rcases List.mem_cons.mp hmem with hc | hc
        · have := h3 r hr (by rw [hfc, hc])
          omega
        · have := h2 r hr hc
          omega
    · rw [List.mem_singleton.mp hr] at hmem
      simp only [loadStart_req_controllerId] at hmem
      exfalso
      cases hfc : w.state.fetchController with
      | none =>
        rw [hfc] at hmem
        have := h6 _ hmem
        omega
      | some c =>
        rw [hfc] at hmem
        rcases List.mem_cons.mp hmem with hc | hc
        · have := h5 c hfc
          omega
        · have := h6 _ hc
          omega
  case currentFresh =>
    intro r hr hfc
    rw [hst] at hfc ⊢
    simp only [loadStart_state_fetchController, Option.some.injEq] at hfc
    rcases List.mem_append.mp (hreq ▸ hr) with hr | hr
    · have := h4 r hr
      omega
    · rw [List.mem_singleton.mp hr]
      simp
  case reqIdLt =>
    intro r hr
    rw [hst]
    simp only [loadStart_state_nextControllerId]
    rcases List.mem_append.mp (hreq ▸ hr) with hr | hr
    · have := h4 r hr
      omega
    · rw [List.mem_singleton.mp hr]
      simp
  case ctrlLt =>
    intro c hfc
    rw [hst] at hfc ⊢
    simp only [loadStart_state_fetchController, Option.some.injEq] at hfc
    simp only [loadStart_state_nextControllerId]
    omega
  case abortedLt =>
    intro a hmem
    rw [hst] at hmem ⊢
    rw [loadStart_state_aborted] at hmem
    simp only [loadStart_state_nextControllerId]
    cases hfc : w.state.fetchController with
    | none =>
      rw [hfc] at hmem
      have := h6 _ hmem
      omega
    | some c =>
      rw [hfc] at hmem
      rcases List.mem_cons.mp hmem with hc | hc
      · have := h5 c hfc
        omega
      · have := h6 _ hc
        omega

lemma inv_fireDue (t : Nat) (w : World) (h : Inv w) : Inv (fireDue t w) := by
  unfold fireDue
  split
  · split
    · refine inv_wStart _ _ _ _ (inv_of_book w _ ?_ ?_ ?_ ?_ ?_ h) <;> rfl
    · exact h
  · exact h

lemma inv_flushTimer (w : World) (h : Inv w) : Inv (flushTimer w) := by
  unfold flushTimer
  split
  · exact inv_fireDue _ _ h
  · exact h

lemma inv_wStep (e : WEvent) (w : World) (h : Inv w) : Inv (wStep e w) := by
  cases e with
  | start mode ob mb =>
    simp only [wStep]
    exact inv_wStart _ _ _ _ h
  | complete idx o now =>
    simp only [wStep]
    split
    · refine inv_of_book w _ rfl ?_ ?_ ?_ ?_ h
      · exact (loadComplete_book _ _ _ _).1
      · exact (loadComplete_book _ _ _ _).2.1
      · exact (loadComplete_book _ _ _ _).2.2.1
      · exact (loadComplete_book _ _ _ _).2.2.2
    · exact h
  | move m =>
    have h1 := inv_fireDue m.t w h
    simp only [wStep, wMove]
    refine inv_of_book (fireDue m.t w) _ rfl ?_ ?_ ?_ ?_ h1
    · exact (handleMapMove_book _ _ _ _ _).1
    · exact (handleMapMove_book _ _ _ _ _).2.1
    · exact (handleMapMove_book _ _ _ _ _).2.2.1
    · exact (handleMapMove_book _ _ _ _ _).2.2.2
  | searchArea mb =>
    simp only [wStep, wSearchArea]
    split
    · refine inv_wStart _ _ _ _ (inv_of_book w _ ?_ ?_ ?_ ?_ ?_ h) <;> rfl
    · exact h
  | retry mb =>
    simp only [wStep, wRetry]
    exact inv_wStart _ _ _ _ h
  | toggleAuto mb =>
    simp only [wStep, wToggleAuto]
    split
    · cases mb with
      | none => refine inv_of_book w _ ?_ ?_ ?_ ?_ ?_ h <;> rfl
      | some b =>
        refine inv_wStart _ _ _ _ (inv_of_book w _ ?_ ?_ ?_ ?_ ?_ h) <;> rfl
    · refine inv_of_book w _ ?_ ?_ ?_ ?_ ?_ h <;> rfl
  | timerFire =>
    simp only [wStep]
    exact inv_flushTimer w h

lemma inv_wRun (es : List WEvent) (w : World) (h : Inv w) : Inv (wRun es w) := by
  induction es generalizing w with
  | nil => exact h
  | cons e es ih => exact ih _ (inv_wStep e w h)

lemma reachable_inv (w : World) (h : Reachable w) : Inv w := by
  obtain ⟨au, c, z, es, rfl⟩ := h
  exact inv_wRun es _ (inv_initial au c z)

/-! ## Display-field lemmas -/

@[simp] lemma applyFinally_fields (b : Bool) (st : PageState) :
    (applyFinally b st).stations = st.stations ∧
    (applyFinally b st).lastNonEmptyStations = st.lastNonEmptyStations ∧
    (applyFinally b st).lastContext = st.lastContext ∧
    (applyFinally b st).lastUpdated = st.lastUpdated ∧
    (applyFinally b st).hasLoadedOnce = st.hasLoadedOnce ∧
    (applyFinally b st).error = st.error ∧
    (applyFinally b st).moveDebounce = st.moveDebounce ∧
    (applyFinally b st).warnings = st.warnings := by
  unfold applyFinally
  split
  all_goals exact ⟨rfl, rfl, rfl, rfl, rfl, rfl, rfl, rfl⟩

@[simp] lemma stabilizeStations_fields (f : List StationFeature) (s : PageState) :
    (stabilizeStations f s).error = s.error ∧
    (stabilizeStations f s).lastUpdated = s.lastUpdated ∧
    (stabilizeStations f s).hasLoadedOnce = s.hasLoadedOnce ∧
    (stabilizeStations f s).lastContext = s.lastContext ∧
    (stabilizeStations f s).moveDebounce = s.moveDebounce ∧
    (stabilizeStations f s).pendingBounds = s.pendingBounds := by
  unfold stabilizeStations
  repeat' split
  all_goals exact ⟨rfl, rfl, rfl, rfl, rfl, rfl⟩

@[simp] lemma applySuccess_fields (req : RequestSpec)
    (ocm : Option (List StationFeature)) (c : Option (List ChargingStation))
    (now : Nat) (s : PageState) :
    (applySuccess req ocm c now s).error = s.error ∧
    (applySuccess req ocm c now s).lastUpdated = some now ∧
    (applySuccess req ocm c now s).hasLoadedOnce = true ∧
    (applySuccess req ocm c now s).lastContext = req.nextContext := by
  simp only [applySuccess]
  cases hsb : req.sourceBounds <;> simp [hsb]

@[simp] lemma applySuccess_stations (req : RequestSpec)
    (ocm : Option (List StationFeature)) (c : Option (List ChargingStation))
    (now : Nat) (s : PageState) :
    (applySuccess req ocm c now s).stations =
      (stabilizeStations (mergeStationsWithOCM (c.getD []) (ocm.getD []))
        { s with lastContext := req.nextContext }).stations := by
  simp only [applySuccess]
  cases hsb : req.sourceBounds <;> simp [hsb]

@[simp] lemma applySuccess_warnings (req : RequestSpec)
    (ocm : Option (List StationFeature)) (c : Option (List ChargingStation))
    (now : Nat) (s : PageState) :
    (applySuccess req ocm c now s).warnings =
      (stabilizeStations (mergeStationsWithOCM (c.getD []) (ocm.getD []))
        { s with lastContext := req.nextContext }).warnings := by
  simp only [applySuccess]
  cases hsb : req.sourceBounds <;> simp [hsb]

@[simp] lemma loadStart_state_moveDebounce (mode : Mode)
    (ob mb : Option LatLngBounds) (s : PageState) :
    ((loadStart mode ob mb s).1).moveDebounce = s.moveDebounce := rfl

@[simp] lemma loadStart_state_lastContext (mode : Mode)
    (ob mb : Option LatLngBounds) (s : PageState) :
    ((loadStart mode ob mb s).1).lastContext = s.lastContext := rfl

@[simp] lemma loadStart_req_mode (mode : Mode) (ob mb : Option LatLngBounds)
    (s : PageState) : ((loadStart mode ob mb s).2).mode = mode := rfl

/-! ## Claims -/

/-- Claim C1: for any completion of a `loadStations` call whose generation
token differs from the current one at resolution time, the displayed station
list, the last-non-empty set, the stored query context, the last-updated
time and the has-loaded-once flag are all left untouched, for every possible
outcome and resolution order. -/
theorem stale_generation_discarded (req : RequestSpec) (o : FetchOutcome)
    (now : Nat) (s : PageState) (h : req.token ≠ s.requestToken) :
    (loadComplete req o now s).stations = s.stations ∧
    (loadComplete req o now s).lastNonEmptyStations = s.lastNonEmptyStations ∧
    (loadComplete req o now s).lastContext = s.lastContext ∧
    (loadComplete req o now s).lastUpdated = s.lastUpdated ∧
    (loadComplete req o now s).hasLoadedOnce = s.hasLoadedOnce := by
  cases o with
  | success ocm c =>
    simp only [loadComplete, if_neg h]
    unfold applyFinally
    split
    all_goals exact ⟨rfl, rfl, rfl, rfl, rfl⟩
  | failure msg =>
    simp only [loadComplete]
    unfold applyFinally
    repeat' split
    all_goals exact ⟨rfl, rfl, rfl, rfl, rfl⟩

theorem stale_generation_discarded_witness :
    cStaleReq.token ≠ (initialPageState true (0, 0) 8).requestToken ∧
    ((loadComplete cStaleReq (FetchOutcome.success (some []) none) 3
        (initialPageState true (0, 0) 8)).stations =
          (initialPageState true (0, 0) 8).stations ∧
     (loadComplete cStaleReq (FetchOutcome.success (some []) none) 3
        (initialPageState true (0, 0) 8)).lastNonEmptyStations =
          (initialPageState true (0, 0) 8).lastNonEmptyStations ∧
     (loadComplete cStaleReq (FetchOutcome.success (some []) none) 3
        (initialPageState true (0, 0) 8)).lastContext =
          (initialPageState true (0, 0) 8).lastContext ∧
     (loadComplete cStaleReq (FetchOutcome.success (some []) none) 3
        (initialPageState true (0, 0) 8)).lastUpdated =
          (initialPageState true (0, 0) 8).lastUpdated ∧
     (loadComplete cStaleReq (FetchOutcome.success (some []) none) 3
        (initialPageState true (0, 0) 8)).hasLoadedOnce =
          (initialPageState true (0, 0) 8).hasLoadedOnce) :=
  ⟨by decide,
   stale_generation_discarded cStaleReq (FetchOutcome.success (some []) none) 3
     (initialPageState true (0, 0) 8) (by decide)⟩

lemma convert_id (st : ChargingStation) (f : StationFeature)
    (h : convertToOCMFormat st = some f) :
    f.properties.id = numericId st.id := by
  cases hla : st.latitude with
  | none => simp [convertToOCMFormat, hla] at h
  | some la =>
    cases hlo : st.longitude with
    | none => simp [convertToOCMFormat, hla, hlo] at h
    | some lo =>
      simp only [convertToOCMFormat, hla, hlo, Option.some.injEq] at h
      subst h
      rfl

/-- Claim C9: the synthetic id of a converted first-party record is a pure
function of the record's persistent string id — records sharing an id get
the same numeric id — and equals the absolute value of the order-sensitive
32-bit rolling character-code hash plus the constant 1000000, so it is
always at least 1000000. -/
theorem synthetic_id_spec (s1 s2 : ChargingStation) (f1 f2 : StationFeature)
    (hid : s1.id = s2.id)
    (h1 : convertToOCMFormat s1 = some f1)
    (h2 : convertToOCMFormat s2 = some f2) :
    f1.properties.id = f2.properties.id ∧
    f1.properties.id = ((jsHash s1.id).natAbs : Int) + 1000000 ∧
    1000000 ≤ f1.properties.id ∧
    jsHash ("ab") ≠ jsHash ("ba") := by
  have e1 := convert_id s1 f1 h1
  have e2 := convert_id s2 f2 h2
  refine ⟨?_, ?_, ?_, by decide⟩
  · rw [e1, e2, hid]
  · rw [e1]; rfl
  · rw [e1]; unfold numericId; omega

theorem synthetic_id_spec_witness :
    (cStation.id = cStation.id ∧ convertToOCMFormat cStation = some cFeature) ∧
    (cFeature.properties.id = cFeature.properties.id ∧
     cFeature.properties.id = ((jsHash cStation.id).natAbs : Int) + 1000000 ∧
     1000000 ≤ cFeature.properties.id ∧
     jsHash ("ab") ≠ jsHash ("ba")) :=
  ⟨⟨rfl, by decide⟩,
   synthetic_id_spec cStation cStation cFeature cFeature rfl (by decide) (by decide)⟩

/-- Claim C4: a thrown first-party store fetch is indistinguishable from an
empty first-party list, never sets the error state, and when the request is
authoritative the load resolves with exactly the third-party results. -/
theorem store_failure_tolerated (req : RequestSpec)
    (ocm : Option (List StationFeature)) (now : Nat) (s : PageState) :
    loadComplete req (FetchOutcome.success ocm none) now s =
      loadComplete req (FetchOutcome.success ocm (some [])) now s ∧
    (∀ c, (loadComplete req (FetchOutcome.success ocm c) now s).error = s.error) ∧
    (∀ l, mergeStationsWithOCM [] l = l) ∧
    (req.token = s.requestToken → ∀ l, ocm = some l → 0 < l.length →
      (loadComplete req (FetchOutcome.success ocm none) now s).stations = l) := by
  refine ⟨rfl, ?_, ?_, ?_⟩
  · intro c
    simp only [loadComplete]
    split <;> simp
  · intro l
    simp [mergeStationsWithOCM]
  · intro htok l hl hpos
    subst hl
    have hm : mergeStationsWithOCM ([] : List ChargingStation) l = l := by
      simp [mergeStationsWithOCM]
    simp only [loadComplete, if_pos htok]
    simp [stabilizeStations, hm, hpos]

theorem store_failure_tolerated_witness :
    (cStaleReq.token = cStaleReq.token ∧
     (some [cFeature] : Option (List StationFeature)) = some [cFeature] ∧
     0 < [cFeature].length) ∧
    (loadComplete cStaleReq (FetchOutcome.success (some [cFeature]) none) 3
      { initialPageState true (0, 0) 8 with requestToken := 5 }).stations = [cFeature] :=
  ⟨⟨rfl, rfl, by decide⟩,
   (store_failure_tolerated cStaleReq (some [cFeature]) 3
     { initialPageState true (0, 0) 8 with requestToken := 5 }).2.2.2 (by decide)
     [cFeature] rfl (by decide)⟩

/-- Claim C10: every authoritative successful completion — including one
whose merged result is empty while the previous non-empty list stays on
screen — updates the stored query context, the last-updated timestamp and
the has-loaded-once flag to the completing fetch's values, so a subsequent
retry targets the completing fetch's scope. -/
theorem authoritative_updates_context (req : RequestSpec)
    (ocm : Option (List StationFeature)) (c : Option (List ChargingStation))
    (now : Nat) (s : PageState) (h : req.token = s.requestToken) :
    (loadComplete req (FetchOutcome.success ocm c) now s).lastContext = req.nextContext ∧
    (loadComplete req (FetchOutcome.success ocm c) now s).lastUpdated = some now ∧
    (loadComplete req (FetchOutcome.success ocm c) now s).hasLoadedOnce = true ∧
    (∀ t, req.nextContext = { mode := Mode.bounds, bounds := some t } →
      retryTarget (loadComplete req (FetchOutcome.success ocm c) now s) =
        (Mode.bounds, some (boundsFromTuple t))) := by
  have hctx : (loadComplete req (FetchOutcome.success ocm c) now s).lastContext =
      req.nextContext := by
    simp only [loadComplete, if_pos h]
    simp
  refine ⟨hctx, ?_, ?_, ?_⟩
  · simp only [loadComplete, if_pos h]
    simp
  · simp only [loadComplete, if_pos h]
    simp
  · intro t ht
    unfold retryTarget
    rw [hctx, ht]
    simp

/-- Claim C3: when an authoritative fetch succeeds with an empty merged
result, the previously displayed non-empty set is kept (and a warning-level
diagnostic is logged) if one exists; on a first-ever load an empty result is
displayed as empty. -/
theorem empty_result_stabilized (req : RequestSpec)
    (ocm : Option (List StationFeature)) (c : Option (List ChargingStation))
    (now : Nat) (s : PageState) (h : req.token = s.requestToken)
    (hempty : mergeStationsWithOCM (c.getD []) (ocm.getD []) = []) :
    (s.hasLoadedOnce = true → ∀ l, s.lastNonEmptyStations = some l → l ≠ [] →
      s.stations = l →
      (loadComplete req (FetchOutcome.success ocm c) now s).stations = l ∧
      (loadComplete req (FetchOutcome.success ocm c) now s).warnings =
        s.warnings ++ [emptyBoundsWarning]) ∧
    (s.hasLoadedOnce = false →
      (loadComplete req (FetchOutcome.success ocm c) now s).stations = []) := by
  constructor
  · intro hloaded l hlast hne hdisp
    have hpos : 0 < l.length := List.length_pos.mpr hne
    simp only [loadComplete, if_pos h]
    constructor
    · simp [stabilizeStations, hempty, hloaded, hlast, hdisp, hpos]
    · simp [stabilizeStations, hempty, hloaded, hlast, hpos]
  · intro hnever
    simp only [loadComplete, if_pos h]
    simp [stabilizeStations, hempty, hnever]

theorem empty_result_stabilized_witness :
    ((loadComplete cReqTok2 (FetchOutcome.success (some []) (some [])) 9
        cLoadedState).stations = [exOcmFeature] ∧
     (loadComplete cReqTok2 (FetchOutcome.success (some []) (some [])) 9
        cLoadedState).warnings = cLoadedState.warnings ++ [emptyBoundsWarning]) ∧
    (loadComplete cReqTok2 (FetchOutcome.success (some []) (some [])) 9
      { cLoadedState with hasLoadedOnce := false }).stations = [] :=
  ⟨(empty_result_stabilized cReqTok2 (some []) (some []) 9 cLoadedState
      (by decide) rfl).1 rfl [exOcmFeature] rfl (by decide) rfl,
   (empty_result_stabilized cReqTok2 (some []) (some []) 9
      { cLoadedState with hasLoadedOnce := false } (by decide) rfl).2 rfl⟩

theorem authoritative_updates_context_witness :
    (cReqTok2.token = cLoadedState.requestToken) ∧
    ((loadComplete cReqTok2 (FetchOutcome.success (some []) (some [])) 4
        cLoadedState).lastContext = cReqTok2.nextContext ∧
     (loadComplete cReqTok2 (FetchOutcome.success (some []) (some [])) 4
        cLoadedState).lastUpdated = some 4 ∧
     (loadComplete cReqTok2 (FetchOutcome.success (some []) (some [])) 4
        cLoadedState).hasLoadedOnce = true ∧
     (∀ t, cReqTok2.nextContext = { mode := Mode.bounds, bounds := some t } →
       retryTarget (loadComplete cReqTok2 (FetchOutcome.success (some []) (some [])) 4
         cLoadedState) = (Mode.bounds, some (boundsFromTuple t)))) :=
  ⟨by decide,
   authoritative_updates_context cReqTok2 (some []) (some []) 4 cLoadedState
     (by decide)⟩

/-- Claim C6: retry re-issues `loadStations` at the scope of the stored
query context — bounds-scoped with the reconstructed stored box when that
context is bounds-scoped, country-scoped otherwise — the initial context is
country-scoped, and neither a failed completion nor the start of a new
attempt replaces the stored context. -/
theorem retry_uses_stored_context (s : PageState) (au : Bool)
    (c0 : Rat × Rat) (z : Int) :
    retryTarget (initialPageState au c0 z) = (Mode.country, none) ∧
    (∀ t, s.lastContext = { mode := Mode.bounds, bounds := some t } →
      retryTarget s = (Mode.bounds, some (boundsFromTuple t))) ∧
    (s.lastContext.mode = Mode.country → retryTarget s = (Mode.country, none)) ∧
    (∀ req msg now,
      (loadComplete req (FetchOutcome.failure msg) now s).lastContext = s.lastContext) ∧
    (∀ mode ob mb, ((loadStart mode ob mb s).1).lastContext = s.lastContext) := by
  refine ⟨?_, ?_, ?_, ?_, ?_⟩
  · rfl
  · intro t ht
    unfold retryTarget
    rw [ht]
    simp
  · intro hc
    unfold retryTarget
    rw [hc]
    simp
  · intro req msg now
    simp only [loadComplete]
    unfold applyFinally
    repeat' split
    all_goals rfl
  · intro mode ob mb
    rfl

theorem retry_uses_stored_context_witness :
    (cBoundsState.lastContext = { mode := Mode.bounds, bounds := some cTuple }) ∧
    retryTarget cBoundsState = (Mode.bounds, some (boundsFromTuple cTuple)) ∧
    retryTarget (initialPageState true (0, 0) 8) = (Mode.country, none) ∧
    (loadComplete cReqTok2 (FetchOutcome.failure ("network down")) 3
      cBoundsState).lastContext = cBoundsState.lastContext :=
  ⟨rfl,
   (retry_uses_stored_context cBoundsState true (0, 0) 8).2.1 cTuple rfl,
   (retry_uses_stored_context cBoundsState true (0, 0) 8).1,
   (retry_uses_stored_context cBoundsState true (0, 0) 8).2.2.2.1 cReqTok2
     ("network down") 3⟩

/-- Claim C7 counterexample: merging one third-party feature with one
first-party station and rendering with a blank search term creates the
markers custom-first — not in fetch order, which would put the third-party
feature's id first. -/
theorem marker_order_counterexample :
    markerCreationOrder ("") (mergeStationsWithOCM [cStation] [exOcmFeature]) ≠
      (mergeStationsWithOCM [cStation] [exOcmFeature]).map
        (fun f => f.properties.id) ∧
    markerCreationOrder ("") (mergeStationsWithOCM [cStation] [exOcmFeature]) =
      (visibleStations ("") (mergeStationsWithOCM [cStation] [exOcmFeature])).map
        (fun f => f.properties.id) := by
  constructor
  · decide
  · rfl

/-- Claim C7 (amended): converted first-party stations are appended after
the third-party list in the canonical merged result; the custom-first
reordering is applied to the displayed list and equally to marker creation —
markers are created in the list-display (`visibleStations`) order, which
groups all custom stations before all third-party ones, not in fetch
order. -/
theorem merge_and_display_order (customs : List ChargingStation)
    (ocms stations : List StationFeature) (q : String) :
    mergeStationsWithOCM customs ocms =
      ocms ++ customs.filterMap convertToOCMFormat ∧
    visibleStations ("") stations =
      stations.filter (fun f => f.properties.isCustomStation) ++
        stations.filter (fun f => !f.properties.isCustomStation) ∧
    markerCreationOrder q stations =
      (visibleStations q stations).map (fun f => f.properties.id) ∧
    (∃ a b, visibleStations q stations = a ++ b ∧
      (∀ f ∈ a, f.properties.isCustomStation = true) ∧
      (∀ f ∈ b, f.properties.isCustomStation = false)) := by
  refine ⟨rfl, rfl, rfl, ?_⟩
  simp only [visibleStations, sortCustomFirst]
  split
  · refine ⟨_, _, rfl, ?_, ?_⟩
    · intro f hf
      exact (List.mem_filter.mp hf).2
    · intro f hf
      simpa using (List.mem_filter.mp hf).2
  · rw [List.filter_append]
    refine ⟨_, _, rfl, ?_, ?_⟩
    · intro f hf
      exact (List.mem_filter.mp (List.mem_filter.mp hf).1).2
    · intro f hf
      simpa using (List.mem_filter.mp (List.mem_filter.mp hf).1).2

/-- Claim C2 (amended): starting a new `loadStations` aborts exactly the
one previous controller (or zero when none exists); the fresh controller's
cancellation signal is passed to the third-party geodata fetch but not to
the first-party store fetch, which receives no signal; and in any reachable
world the completion of a canceled (aborted) request is a no-op on the
state — it mutates nothing, sets no error, and leaves the loading flag
alone — whatever its outcome and resolution time. -/
theorem cancellation_semantics :
    (∀ (mode : Mode) (ob mb : Option LatLngBounds) (s : PageState),
      (s.fetchController = none →
        ((loadStart mode ob mb s).1).aborted = s.aborted) ∧
      (∀ c, s.fetchController = some c →
        ((loadStart mode ob mb s).1).aborted = c :: s.aborted) ∧
      ((loadStart mode ob mb s).2).ocmSignal =
        some ((loadStart mode ob mb s).2).controllerId ∧
      ((loadStart mode ob mb s).2).customSignal = none) ∧
    (∀ w : World, Reachable w → ∀ r ∈ w.requests,
      r.controllerId ∈ w.state.aborted →
      ∀ (o : FetchOutcome) (now : Nat),
        loadComplete r o now w.state = w.state) := by
  constructor
  · intro mode ob mb s
    refine ⟨?_, ?_, rfl, rfl⟩
    · intro h
      rw [loadStart_state_aborted, h]
    · intro c h
      rw [loadStart_state_aborted, h]
  · intro w hw r hr hmem o now
    have hinv := reachable_inv w hw
    have hstale := hinv.abortedStale r hr hmem
    have hne : r.token ≠ w.state.requestToken := Nat.ne_of_lt hstale
    have hab : isAborted w.state r.controllerId = true := by
      unfold isAborted
      exact decide_eq_true hmem
    cases o with
    | success ocm c =>
      simp only [loadComplete, if_neg hne]
      unfold applyFinally
      rw [hab]
      simp
    | failure msg =>
      simp only [loadComplete]
      unfold applyFinally
      rw [hab]
      simp

/-- Claim C2 counterexample: the very first `loadStations` call passes its
controller's signal to the third-party fetch, but the first-party store
fetch receives no cancellation signal at all (`fetchChargingStations()`
takes no argument), so the signal does not cover both sub-fetches. -/
theorem cancellation_counterexample :
    ((loadStart Mode.country none none (initialPageState true (0, 0) 8)).2).ocmSignal =
      some ((loadStart Mode.country none none (initialPageState true (0, 0) 8)).2).controllerId ∧
    ((loadStart Mode.country none none (initialPageState true (0, 0) 8)).2).customSignal =
      none ∧
    ((loadStart Mode.country none none (initialPageState true (0, 0) 8)).2).customSignal ≠
      ((loadStart Mode.country none none (initialPageState true (0, 0) 8)).2).ocmSignal :=
  ⟨rfl, rfl, by decide⟩

theorem cancellation_semantics_witness :
    (Reachable cAbortWorld ∧ cAbortedReq ∈ cAbortWorld.requests ∧
     cAbortedReq.controllerId ∈ cAbortWorld.state.aborted) ∧
    loadComplete cAbortedReq (FetchOutcome.success (some [exOcmFeature]) none) 6
      cAbortWorld.state = cAbortWorld.state ∧
    loadComplete cAbortedReq (FetchOutcome.failure ("boom")) 6
      cAbortWorld.state = cAbortWorld.state :=
  ⟨⟨⟨true, (0, 0), 8, _, rfl⟩, by decide, by decide⟩,
   cancellation_semantics.2 cAbortWorld ⟨true, (0, 0), 8, _, rfl⟩ cAbortedReq
     (by decide) (by decide) (FetchOutcome.success (some [exOcmFeature]) none) 6,
   cancellation_semantics.2 cAbortWorld ⟨true, (0, 0), 8, _, rfl⟩ cAbortedReq
     (by decide) (by decide) (FetchOutcome.failure ("boom")) 6⟩

lemma fireDue_none (t : Nat) (w : World) (h : w.state.moveDebounce = none) :
    fireDue t w = w := by
  unfold fireDue
  rw [h]

lemma fireDue_not_due (t ft : Nat) (b : LatLngBounds) (w : World)
    (h : w.state.moveDebounce = some (ft, b)) (hlt : ¬ ft ≤ t) :
    fireDue t w = w := by
  unfold fireDue
  rw [h]
  simp [hlt]

lemma handleMapMove_manual (now : Nat) (c : Rat × Rat) (z : Int)
    (b : LatLngBounds) (s : PageState) (h : s.autoUpdate = false) :
    handleMapMove now c z b s =
      { s with
          mapCenter := c
          mapZoom := z
          pendingBounds := some b
          pendingSearch := true } := by
  unfold handleMapMove
  simp [h]

lemma handleMapMove_auto (now : Nat) (c : Rat × Rat) (z : Int)
    (b : LatLngBounds) (s : PageState) (h : s.autoUpdate = true) :
    handleMapMove now c z b s =
      { s with
          mapCenter := c
          mapZoom := z
          pendingSearch := false
          pendingBounds := some b
          moveDebounce := some (now + 450, b) } := by
  unfold handleMapMove
  simp [h]

/-- Claim C8: with auto-sync off, a map movement never issues a fetch and
never arms the debounce timer; it raises the pending-search flag and stores
the candidate bounds.  A subsequent "search this area" issues exactly one
bounds-scoped fetch immediately (the debounce timer is not involved) using
the tracked bounds, or the current map bounds when none were tracked. -/
theorem manual_search_area (w : World) (t : Nat) (c : Rat × Rat) (z : Int)
    (b : LatLngBounds) (mb : Option LatLngBounds)
    (hauto : w.state.autoUpdate = false)
    (htimer : w.state.moveDebounce = none) :
    (wMove { t := t, center := c, zoom := z, bounds := b } w).requests = w.requests ∧
    (wMove { t := t, center := c, zoom := z, bounds := b } w).debFires = w.debFires ∧
    (wMove { t := t, center := c, zoom := z, bounds := b } w).state.moveDebounce = none ∧
    (wMove { t := t, center := c, zoom := z, bounds := b } w).state.pendingSearch = true ∧
    (wMove { t := t, center := c, zoom := z, bounds := b } w).state.pendingBounds = some b ∧
    (∃ r, (wSearchArea mb (wMove { t := t, center := c, zoom := z, bounds := b } w)).requests =
        w.requests ++ [r] ∧
      r.mode = Mode.bounds ∧ r.fetchBounds = some b ∧ r.sourceBounds = some b) ∧
    (wSearchArea mb (wMove { t := t, center := c, zoom := z, bounds := b } w)).state.moveDebounce =
      none ∧
    (∀ w2 : World, w2.state.pendingBounds = none → ∀ b2,
      ∃ r, (wSearchArea (some b2) w2).requests = w2.requests ++ [r] ∧
        r.mode = Mode.bounds ∧ r.fetchBounds = some b2) := by
  have hmv : wMove { t := t, center := c, zoom := z, bounds := b } w =
      { w with state :=
          { w.state with
              mapCenter := c
              mapZoom := z
              pendingBounds := some b
              pendingSearch := true } } := by
    unfold wMove
    rw [fireDue_none t w htimer]
    show { w with state := handleMapMove t c z b w.state } = _
    rw [handleMapMove_manual t c z b w.state hauto]
  refine ⟨?_, ?_, ?_, ?_, ?_, ?_, ?_, ?_⟩
  · rw [hmv]
  · rw [hmv]
  · rw [hmv]
    exact htimer
  · rw [hmv]
  · rw [hmv]
  · rw [hmv]
    exact ⟨_, rfl, rfl, rfl, rfl⟩
  · rw [hmv]
    simp only [wSearchArea, optOr, wStart, loadStart_state_moveDebounce]
    exact htimer
  · intro w2 h2 b2
    unfold wSearchArea
    rw [show optOr w2.state.pendingBounds (some b2) = some b2 from by
      unfold optOr
      rw [h2]]
    exact ⟨_, rfl, rfl, rfl⟩

theorem manual_search_area_witness :
    (wMove { t := 10, center := (1, 1), zoom := 9, bounds := cBounds } cManualWorld).requests =
      cManualWorld.requests ∧
    (wMove { t := 10, center := (1, 1), zoom := 9, bounds := cBounds } cManualWorld).debFires =
      cManualWorld.debFires ∧
    (wMove { t := 10, center := (1, 1), zoom := 9, bounds := cBounds }
      cManualWorld).state.moveDebounce = none ∧
    (wMove { t := 10, center := (1, 1), zoom := 9, bounds := cBounds }
      cManualWorld).state.pendingSearch = true ∧
    (wMove { t := 10, center := (1, 1), zoom := 9, bounds := cBounds }
      cManualWorld).state.pendingBounds = some cBounds ∧
    (∃ r, (wSearchArea none (wMove { t := 10, center := (1, 1), zoom := 9, bounds := cBounds }
        cManualWorld)).requests = cManualWorld.requests ++ [r] ∧
      r.mode = Mode.bounds ∧ r.fetchBounds = some cBounds ∧
      r.sourceBounds = some cBounds) ∧
    (wSearchArea none (wMove { t := 10, center := (1, 1), zoom := 9, bounds := cBounds }
      cManualWorld)).state.moveDebounce = none ∧
    (∀ w2 : World, w2.state.pendingBounds = none → ∀ b2,
      ∃ r, (wSearchArea (some b2) w2).requests = w2.requests ++ [r] ∧
        r.mode = Mode.bounds ∧ r.fetchBounds = some b2) :=
  manual_search_area cManualWorld 10 (1, 1) 9 cBounds none rfl rfl

/-! ## Debounce burst semantics (C5) -/

lemma flushTimer_fires (w : World) (ft : Nat) (b : LatLngBounds)
    (h : w.state.moveDebounce = some (ft, b)) :
    flushTimer w =
      wStart Mode.bounds (some b) none
        { w with
            state := { w.state with moveDebounce := none }
            debFires := w.debFires ++ [ft] } := by
  unfold flushTimer fireDue
  rw [h]
  simp

lemma runMoves_burst (ms : List MoveEv) (t : Nat) (b : LatLngBounds)
    (w : World) (hauto : w.state.autoUpdate = true)
    (htimer : w.state.moveDebounce = some (t + 450, b))
    (hgaps : gapsOk t ms = true) :
    (runMoves ms w).requests = w.requests ∧
    (runMoves ms w).debFires = w.debFires ∧
    (runMoves ms w).state.autoUpdate = true ∧
    (runMoves ms w).state.moveDebounce =
      some ((lastMove (t, b) ms).1 + 450, (lastMove (t, b) ms).2) := by
  induction ms generalizing t b w with
  | nil =>
    refine ⟨rfl, rfl, hauto, ?_⟩
    show w.state.moveDebounce = some (t + 450, b)
    exact htimer
  | cons m ms ih =>
    simp only [gapsOk, Bool.and_eq_true, decide_eq_true_eq] at hgaps
    obtain ⟨⟨hlt1, hlt2⟩, hrest⟩ := hgaps
    have hmv : wMove m w =
        { w with state :=
            { w.state with
                mapCenter := m.center
                mapZoom := m.zoom
                pendingSearch := false
                pendingBounds := some m.bounds
                moveDebounce := some (m.t + 450, m.bounds) } } := by
      unfold wMove
      rw [fireDue_not_due m.t (t + 450) b w htimer (by omega)]
      show { w with state := handleMapMove m.t m.center m.zoom m.bounds w.state } = _
      rw [handleMapMove_auto m.t m.center m.zoom m.bounds w.state hauto]
    have hrun : runMoves (m :: ms) w = runMoves ms (wMove m w) := rfl
    have hih := ih m.t m.bounds (wMove m w)
      (by rw [hmv]; exact hauto) (by rw [hmv]) hrest
    rw [hrun]
    refine ⟨?_, ?_, hih.2.2.1, ?_⟩
    · rw [hih.1, hmv]
    · rw [hih.2.1, hmv]
    · rw [hih.2.2.2]
      rfl

/-- Claim C5: with auto-sync on and no timer pending, a burst of rapid
movement events (each strictly within 450 ms of the previous) issues no
fetch during the burst, keeps exactly one pending debounce timer armed for
450 ms after the latest event with that event's bounds, and letting the
timer fire produces exactly one bounds-scoped fetch, fired 450 ms after the
last movement with the last movement's bounds. -/
theorem debounce_burst (w : World) (m : MoveEv) (ms : List MoveEv)
    (hauto : w.state.autoUpdate = true)
    (htimer : w.state.moveDebounce = none)
    (hgaps : gapsOk m.t ms = true) :
    (runMoves (m :: ms) w).requests = w.requests ∧
    (runMoves (m :: ms) w).debFires = w.debFires ∧
    (runMoves (m :: ms) w).state.moveDebounce =
      some ((lastMove (m.t, m.bounds) ms).1 + 450,
        (lastMove (m.t, m.bounds) ms).2) ∧
    (flushTimer (runMoves (m :: ms) w)).debFires =
      w.debFires ++ [(lastMove (m.t, m.bounds) ms).1 + 450] ∧
    (∃ r, (flushTimer (runMoves (m :: ms) w)).requests = w.requests ++ [r] ∧
      r.mode = Mode.bounds ∧
      r.fetchBounds = some (lastMove (m.t, m.bounds) ms).2 ∧
      r.sourceBounds = some (lastMove (m.t, m.bounds) ms).2) := by
  have hmv : wMove m w =
      { w with state :=
          { w.state with
              mapCenter := m.center
              mapZoom := m.zoom
              pendingSearch := false
              pendingBounds := some m.bounds
              moveDebounce := some (m.t + 450, m.bounds) } } := by
    unfold wMove
    rw [fireDue_none m.t w htimer]
    show { w with state := handleMapMove m.t m.center m.zoom m.bounds w.state } = _
    rw [handleMapMove_auto m.t m.center m.zoom m.bounds w.state hauto]
  have hrun : runMoves (m :: ms) w = runMoves ms (wMove m w) := rfl
  have hburst := runMoves_burst ms m.t m.bounds (wMove m w)
    (by rw [hmv]; exact hauto) (by rw [hmv]) hgaps
  have hreq : (runMoves (m :: ms) w).requests = w.requests := by
    rw [hrun, hburst.1, hmv]
  have hfires : (runMoves (m :: ms) w).debFires = w.debFires := by
    rw [hrun, hburst.2.1, hmv]
  have htmr : (runMoves (m :: ms) w).state.moveDebounce =
      some ((lastMove (m.t, m.bounds) ms).1 + 450,
        (lastMove (m.t, m.bounds) ms).2) := by
    rw [hrun, hburst.2.2.2]
  have hflush := flushTimer_fires (runMoves (m :: ms) w) _ _ htmr
  refine ⟨hreq, hfires, htmr, ?_, ?_⟩
  · rw [hflush]
    show (runMoves (m :: ms) w).debFires ++ _ = _
    rw [hfires]
  · have hfr : (flushTimer (runMoves (m :: ms) w)).requests =
        w.requests ++
          [(loadStart Mode.bounds (some (lastMove (m.t, m.bounds) ms).2) none
            { (runMoves (m :: ms) w).state with moveDebounce := none }).2] := by
      rw [hflush]
      show (runMoves (m :: ms) w).requests ++ _ = _
      rw [hreq]
    exact ⟨_, hfr, rfl, rfl, rfl⟩

theorem debounce_burst_witness :
    (runMoves (cMove 0 cBounds :: cBurst) (initialWorld true (0, 0) 8)).requests =
      (initialWorld true (0, 0) 8).requests ∧
    (runMoves (cMove 0 cBounds :: cBurst) (initialWorld true (0, 0) 8)).debFires =
      (initialWorld true (0, 0) 8).debFires ∧
    (runMoves (cMove 0 cBounds :: cBurst)
      (initialWorld true (0, 0) 8)).state.moveDebounce =
        some ((lastMove ((cMove 0 cBounds).t, (cMove 0 cBounds).bounds) cBurst).1 + 450,
          (lastMove ((cMove 0 cBounds).t, (cMove 0 cBounds).bounds) cBurst).2) ∧
    (flushTimer (runMoves (cMove 0 cBounds :: cBurst)
      (initialWorld true (0, 0) 8))).debFires =
        (initialWorld true (0, 0) 8).debFires ++
          [(lastMove ((cMove 0 cBounds).t, (cMove 0 cBounds).bounds) cBurst).1 + 450] ∧
    (∃ r, (flushTimer (runMoves (cMove 0 cBounds :: cBurst)
        (initialWorld true (0, 0) 8))).requests =
          (initialWorld true (0, 0) 8).requests ++ [r] ∧
      r.mode = Mode.bounds ∧
      r.fetchBounds =
        some (lastMove ((cMove 0 cBounds).t, (cMove 0 cBounds).bounds) cBurst).2 ∧
      r.sourceBounds =
        some (lastMove ((cMove 0 cBounds).t, (cMove 0 cBounds).bounds) cBurst).2) :=
  debounce_burst (initialWorld true (0, 0) 8) (cMove 0 cBounds) cBurst rfl rfl
    (by decide)

end MakinaElektrike
